import Mathlib

/-!
Verification of the message-reference resolution and mailbox-action dispatch
logic of `protonmail-cli` (`src/protonmail_cli/cli.py` and
`src/protonmail_cli/formatting.py`), as a shallow embedding in Lean 4.

The external mail collaborator is modelled as:
  * the inbox listing as a list `inbox : List String` of durable message
    identifiers in listing order; `proton.get_messages(page_size = n)`
    returns the first `n` entries, i.e. `inbox.take n`;
  * each mutation operation (`delete_messages`, `set_label_for_messages`,
    `unset_label_for_messages`, `mark_messages_as_unread`) as a call value
    of type `MutCall`, whose outcome is given by an arbitrary behaviour
    function `beh : MutCall → Except String Unit` (`.error e` models the
    underlying library raising an exception `e`, which in the Python code
    propagates and aborts the command).

Strings are modelled over ASCII characters: Python's `str.isdigit()`
restricted to ASCII strings is "non-empty and every character in 0-9",
which is `pyIsDigit` below.
-/

namespace PmailCli

/-- Python `ref.isdigit()` (ASCII fragment): true iff the string is
non-empty and every character is a decimal digit `0`-`9`. -/
def pyIsDigit (s : String) : Bool :=
  !s.data.isEmpty && s.data.all Char.isDigit

/-- The classification guard used throughout `cli.py`
(`ref.isdigit() and len(ref) <= 4`): a raw reference is treated as an
inbox index iff it passes this test; otherwise it is passed through as a
durable message identifier. -/
def isIndexRef (s : String) : Bool :=
  pyIsDigit s && s.length ≤ 4

/-- Python `int(ref)` on a string of decimal digits. -/
def refToNat (s : String) : Nat :=
  s.data.foldl (fun a c => a * 10 + (c.toNat - 48)) 0

/-- `max(int(r) for r in refs if r.isdigit() and len(r) <= 4)` from
`_resolve_refs` (cli.py line 537), folded with 0 as the neutral element
(the Python expression is only evaluated when at least one index-shaped
reference exists, in which case the fold equals the maximum). -/
def maxIndexRef (refs : List String) : Nat :=
  ((refs.filter (fun r => isIndexRef r)).map refToNat).foldl Nat.max 0

/-- The error message raised by `_resolve_refs` (cli.py line 541):
`f"Index {idx} out of range"`. -/
def outOfRangeMsg (idx : Nat) : String :=
  "Index " ++ toString idx ++ " out of range"

/-- The error message raised by the single-reference path of `read`
(cli.py line 134): `f"Index {idx} out of range (have {n} messages)"`. -/
def readOutOfRangeMsg (idx n : Nat) : String :=
  "Index " ++ toString idx ++ " out of range (have " ++ toString n ++ " messages)"

/-- The loop body of `_resolve_refs` (cli.py lines 531-545).
State threaded through the loop: the remaining references, the optional
`inbox_cache`, the list of inbox-fetch page sizes performed so far, and
the accumulated resolved identifiers (reversed).  Returns the fetches
performed and either the resolved identifiers or the `SystemExit`
message. -/
def resolveLoop (inbox : List String) (allRefs : List String) :
    List String → Option (List String) → List Nat → List String →
      List Nat × Except String (List String)
  | [], _, fetches, acc => (fetches, Except.ok acc.reverse)
  | r :: rest, cache, fetches, acc =>
    if isIndexRef r then
      let idx := refToNat r
      let st :=
        match cache with
        | some c => (c, fetches)
        | none =>
          (inbox.take (maxIndexRef allRefs + 1), fetches ++ [maxIndexRef allRefs + 1])
      if st.1.length ≤ idx then
        (st.2, Except.error (outOfRangeMsg idx))
      else
        resolveLoop inbox allRefs rest (some st.1) st.2 (st.1.getD idx "" :: acc)
    else
      resolveLoop inbox allRefs rest cache fetches (r :: acc)

/-- `_resolve_refs(proton, refs)` (cli.py lines 529-545): resolve a batch
of raw references against the collaborator's inbox listing.  The first
component records the page sizes of the inbox fetches performed. -/
def resolveRefs (inbox refs : List String) : List Nat × Except String (List String) :=
  resolveLoop inbox refs refs none [] []

/-- The value a single successfully-resolved reference contributes: an
index reference is looked up in the inbox listing, a durable identifier
is passed through unchanged. -/
def resolveOne (inbox : List String) (r : String) : String :=
  if isIndexRef r then inbox.getD (refToNat r) "" else r

/-- The inline single-reference resolution of the `read` command
(cli.py lines 127-135): fetch `page_size = idx + 1` and index into the
result, or pass a non-index reference through unchanged. -/
def readResolve (inbox : List String) (ref : String) : List Nat × Except String String :=
  if isIndexRef ref then
    let idx := refToNat ref
    let messages := inbox.take (idx + 1)
    if messages.length ≤ idx then
      ([idx + 1], Except.error (readOutOfRangeMsg idx messages.length))
    else
      ([idx + 1], Except.ok (messages.getD idx ""))
  else
    ([], Except.ok ref)

/-- A mutation call issued to the external collaborator. -/
inductive MutCall where
  | deleteMessages (ids : List String)
  | setLabel (label : String) (ids : List String)
  | unsetLabel (label : String) (ids : List String)
  | markUnread (ids : List String)
deriving DecidableEq

/-- `SYSTEM_LABELS` (formatting.py lines 47-58): the repository's mapping
from system label identifier to display name. -/
def SYSTEM_LABELS : String → Option String := fun id =>
  if id = "0" then some "Inbox"
  else if id = "1" then some "Drafts"
  else if id = "2" then some "Sent"
  else if id = "3" then some "Starred"
  else if id = "4" then some "Archive"
  else if id = "5" then some "All Mail"
  else if id = "6" then some "Spam"
  else if id = "7" then some "Trash"
  else if id = "8" then some "Draft-Sent"
  else if id = "10" then some "Scheduled"
  else none

/-- `FOLDER_ALIASES` (cli.py lines 82-91): the mapping from folder name to
system label identifier used by `ls`. -/
def FOLDER_ALIASES : String → Option String := fun name =>
  if name = "inbox" then some "0"
  else if name = "drafts" then some "1"
  else if name = "sent" then some "2"
  else if name = "starred" then some "3"
  else if name = "archive" then some "4"
  else if name = "all" then some "5"
  else if name = "spam" then some "6"
  else if name = "trash" then some "7"
  else none

/-- The mutation phase of `delete` (cli.py line 331):
`proton.delete_messages(ids)`.  Returns the calls issued (in order) and
the outcome. -/
def deleteCalls (beh : MutCall → Except String Unit) (ids : List String) :
    List MutCall × Except String Unit :=
  let c := MutCall.deleteMessages ids
  match beh c with
  | Except.error e => ([c], Except.error e)
  | Except.ok _ => ([c], Except.ok ())

/-- The mutation phase of `archive` (cli.py lines 344-346):
`proton.set_label_for_messages("4", ids)` then
`proton.unset_label_for_messages("0", ids)`; an exception from either
call propagates immediately. -/
def archiveCalls (beh : MutCall → Except String Unit) (ids : List String) :
    List MutCall × Except String Unit :=
  let c1 := MutCall.setLabel "4" ids
  match beh c1 with
  | Except.error e => ([c1], Except.error e)
  | Except.ok _ =>
    let c2 := MutCall.unsetLabel "0" ids
    match beh c2 with
    | Except.error e => ([c1, c2], Except.error e)
    | Except.ok _ => ([c1, c2], Except.ok ())

/-- The mutation phase of `spam` (cli.py lines 359-360):
`proton.set_label_for_messages("6", ids)` then
`proton.unset_label_for_messages("0", ids)`. -/
def spamCalls (beh : MutCall → Except String Unit) (ids : List String) :
    List MutCall × Except String Unit :=
  let c1 := MutCall.setLabel "6" ids
  match beh c1 with
  | Except.error e => ([c1], Except.error e)
  | Except.ok _ =>
    let c2 := MutCall.unsetLabel "0" ids
    match beh c2 with
    | Except.error e => ([c1, c2], Except.error e)
    | Except.ok _ => ([c1, c2], Except.ok ())

/-- The mutation phase of `star` (cli.py line 373):
`proton.set_label_for_messages("10", ids)` — a single batched call. -/
def starCalls (beh : MutCall → Except String Unit) (ids : List String) :
    List MutCall × Except String Unit :=
  let c := MutCall.setLabel "10" ids
  match beh c with
  | Except.error e => ([c], Except.error e)
  | Except.ok _ => ([c], Except.ok ())

/-- The mutation phase of `unread` (cli.py line 386):
`proton.mark_messages_as_unread(ids)`. -/
def unreadCalls (beh : MutCall → Except String Unit) (ids : List String) :
    List MutCall × Except String Unit :=
  let c := MutCall.markUnread ids
  match beh c with
  | Except.error e => ([c], Except.error e)
  | Except.ok _ => ([c], Except.ok ())

/-- The `delete` command (cli.py lines 323-333): resolve the batch, then
mutate; a `SystemExit` from `_resolve_refs` aborts before any mutation
call. -/
def deleteCmd (inbox refs : List String) (beh : MutCall → Except String Unit) :
    List MutCall × Except String Unit :=
  match (resolveRefs inbox refs).2 with
  | Except.error e => ([], Except.error e)
  | Except.ok ids => deleteCalls beh ids

/-- The `archive` command (cli.py lines 336-348). -/
def archiveCmd (inbox refs : List String) (beh : MutCall → Except String Unit) :
    List MutCall × Except String Unit :=
  match (resolveRefs inbox refs).2 with
  | Except.error e => ([], Except.error e)
  | Except.ok ids => archiveCalls beh ids

/-- The `spam` command (cli.py lines 351-362). -/
def spamCmd (inbox refs : List String) (beh : MutCall → Except String Unit) :
    List MutCall × Except String Unit :=
  match (resolveRefs inbox refs).2 with
  | Except.error e => ([], Except.error e)
  | Except.ok ids => spamCalls beh ids

/-- The `star` command (cli.py lines 365-375). -/
def starCmd (inbox refs : List String) (beh : MutCall → Except String Unit) :
    List MutCall × Except String Unit :=
  match (resolveRefs inbox refs).2 with
  | Except.error e => ([], Except.error e)
  | Except.ok ids => starCalls beh ids

/-- The `unread` command (cli.py lines 378-388). -/
def unreadCmd (inbox refs : List String) (beh : MutCall → Except String Unit) :
    List MutCall × Except String Unit :=
  match (resolveRefs inbox refs).2 with
  | Except.error e => ([], Except.error e)
  | Except.ok ids => unreadCalls beh ids

/-- A collaborator on which every mutation call succeeds. -/
def behOk : MutCall → Except String Unit := fun _ => Except.ok ()

/-- A collaborator on which label application succeeds but every other
mutation (in particular label removal) fails. -/
def behAddOk : MutCall → Except String Unit := fun c =>
  match c with
  | MutCall.setLabel _ _ => Except.ok ()
  | _ => Except.error "network error"

/-- A collaborator on which every mutation call fails with the same
error, in particular the very first label-application call. -/
def behClean : MutCall → Except String Unit := fun _ =>
  Except.error "network error"

/-- `listStarts pat hay`: `pat` is an initial segment of `hay`. -/
def listStarts : List Char → List Char → Bool
  | [], _ => true
  | _ :: _, [] => false
  | p :: ps, h :: hs => p == h && listStarts ps hs

/-- `listHasSub pat hay`: `pat` occurs as a contiguous run inside `hay`. -/
def listHasSub (pat : List Char) : List Char → Bool
  | [] => listStarts pat []
  | h :: hs => listStarts pat (h :: hs) || listHasSub pat hs

/-- The error message `msg` reports the number `n`: the decimal rendering
of `n` occurs inside `msg`. -/
def mentionsNat (msg : String) (n : Nat) : Prop :=
  listHasSub (toString n).data msg.data = true

/-- The spec's lexical rule, stated in its own words: the textual form
consists solely of decimal digits (so there is at least one character and
every character is a digit). -/
def consistsSolelyOfDecimalDigits (s : String) : Prop :=
  s.data ≠ [] ∧ ∀ c ∈ s.data, c.isDigit

instance (s : String) : Decidable (consistsSolelyOfDecimalDigits s) := by
  unfold consistsSolelyOfDecimalDigits; infer_instance

instance (msg : String) (n : Nat) : Decidable (mentionsNat msg n) := by
  unfold mentionsNat; infer_instance

/-! ### Helper lemmas -/

lemma le_foldl_max_init : ∀ (l : List Nat) (b : Nat), b ≤ l.foldl Nat.max b
  | [], _ => le_refl _
  | x :: xs, b => le_trans (Nat.le_max_left b x) (le_foldl_max_init xs (Nat.max b x))

lemma mem_le_foldl_max : ∀ (l : List Nat) (b a : Nat), a ∈ l → a ≤ l.foldl Nat.max b
  | [], _, a, h => absurd h (List.not_mem_nil a)
  | x :: xs, b, a, h => by
    rcases List.mem_cons.mp h with rfl | h
    · exact le_trans (Nat.le_max_right b a) (le_foldl_max_init xs (Nat.max b a))
    · exact mem_le_foldl_max xs (Nat.max b x) a h

/-- Every index-shaped reference in a batch is bounded by the batch's
`maxIndexRef`. -/
lemma refToNat_le_max (refs : List String) (r : String) (hm : r ∈ refs)
    (hi : isIndexRef r = true) : refToNat r ≤ maxIndexRef refs := by
  unfold maxIndexRef
  exact mem_le_foldl_max _ 0 _
    (List.mem_map_of_mem refToNat (List.mem_filter.mpr ⟨hm, hi⟩))

lemma getD_take {α : Type} : ∀ (l : List α) (n i : Nat) (d : α), i < n →
    (l.take n).getD i d = l.getD i d
  | [], _, _, _, _ => by simp
  | _ :: _, _ + 1, 0, _, _ => by simp
  | x :: xs, n + 1, i + 1, d, h => by
    simpa using getD_take xs n i d (Nat.lt_of_succ_lt_succ h)

lemma listStarts_self_append : ∀ (pat post : List Char),
    listStarts pat (pat ++ post) = true
  | [], _ => rfl
  | p :: ps, post => by
    simp [listStarts, listStarts_self_append ps post]

lemma listHasSub_mid : ∀ (pre pat post : List Char),
    listHasSub pat (pre ++ (pat ++ post)) = true := by
  intro pre pat post
  induction pre with
  | nil =>
    cases pat with
    | nil => cases post <;> simp [listHasSub, listStarts]
    | cons p ps =>
      simp only [List.nil_append, List.cons_append, listHasSub, Bool.or_eq_true]
      exact Or.inl (listStarts_self_append (p :: ps) post)
  | cons c pre ih => simp [listHasSub, ih]

/-- The `_resolve_refs` out-of-range message always reports the requested
index. -/
lemma mentionsNat_outOfRangeMsg (i : Nat) : mentionsNat (outOfRangeMsg i) i := by
  unfold mentionsNat outOfRangeMsg
  rw [String.data_append, String.data_append, List.append_assoc]
  exact listHasSub_mid _ _ _

/-- A non-index reference resolves as a singleton batch to itself, with no
inbox fetch. -/
lemma resolveRefs_durable_singleton (inbox : List String) (s : String)
    (h : isIndexRef s = false) : resolveRefs inbox [s] = ([], Except.ok [s]) := by
  simp [resolveRefs, resolveLoop, h]

/-- Once the inbox cache is populated, the loop performs no further
fetch. -/
lemma resolveLoop_fetches_cached (inbox allRefs : List String) :
    ∀ (remaining : List String) (c : List String) (fetches : List Nat)
      (acc : List String),
      (resolveLoop inbox allRefs remaining (some c) fetches acc).1 = fetches
  | [], _, _, _ => rfl
  | r :: rest, c, fetches, acc => by
    by_cases h : isIndexRef r = true
    · simp only [resolveLoop, h, if_true]
      by_cases h2 : c.length ≤ refToNat r
      · simp [h2]
      · simp only [if_neg h2]
        exact resolveLoop_fetches_cached inbox allRefs rest c fetches _
    · simp only [resolveLoop, h, Bool.false_eq_true, if_false]
      exact resolveLoop_fetches_cached inbox allRefs rest c fetches _

/-- With no index-shaped reference remaining and no cache yet, the loop
performs no fetch and emits every reference unchanged. -/
lemma resolveLoop_all_durable (inbox allRefs : List String) :
    ∀ (remaining : List String) (cache : Option (List String))
      (fetches : List Nat) (acc : List String),
      (∀ r ∈ remaining, isIndexRef r = false) →
      resolveLoop inbox allRefs remaining cache fetches acc =
        (fetches, Except.ok (acc.reverse ++ remaining))
  | [], _, _, _, _ => by simp [resolveLoop]
  | r :: rest, cache, fetches, acc, h => by
    have hr : isIndexRef r = false := h r (List.mem_cons_self r rest)
    simp only [resolveLoop, hr, Bool.false_eq_true, if_false]
    rw [resolveLoop_all_durable inbox allRefs rest cache fetches (r :: acc)
      (fun x hx => h x (List.mem_cons_of_mem r hx))]
    simp

/-- With no cache and at least one index-shaped reference remaining, the
loop performs exactly one fetch, of page size `maxIndexRef allRefs + 1`. -/
lemma resolveLoop_fetches_uncached (inbox allRefs : List String) :
    ∀ (remaining : List String) (fetches : List Nat) (acc : List String),
      (∃ r ∈ remaining, isIndexRef r = true) →
      (resolveLoop inbox allRefs remaining none fetches acc).1 =
        fetches ++ [maxIndexRef allRefs + 1]
  | [], _, _, h => by simp at h
  | r :: rest, fetches, acc, h => by
    by_cases hr : isIndexRef r = true
    · simp only [resolveLoop, hr, if_true]
      by_cases h2 : (inbox.take (maxIndexRef allRefs + 1)).length ≤ refToNat r
      · rw [if_pos h2]
      · simp only [if_neg h2]
        exact resolveLoop_fetches_cached inbox allRefs rest _ _ _
    · simp only [resolveLoop, hr, Bool.false_eq_true, if_false]
      rcases h with ⟨x, hx, hxi⟩
      rcases List.mem_cons.mp hx with rfl | hx
      · exact absurd hxi hr
      · exact resolveLoop_fetches_uncached inbox allRefs rest fetches (r :: acc)
          ⟨x, hx, hxi⟩

/-- Shape of a successful run of the loop: the output is the accumulator
followed by each remaining reference resolved positionally. -/
lemma resolveLoop_ok_eq (inbox allRefs : List String)
    (hbound : ∀ r ∈ allRefs, isIndexRef r = true → refToNat r ≤ maxIndexRef allRefs) :
    ∀ (remaining : List String) (cache : Option (List String)) (fetches : List Nat)
      (acc ids : List String),
      (cache = none ∨ cache = some (inbox.take (maxIndexRef allRefs + 1))) →
      (∀ r ∈ remaining, r ∈ allRefs) →
      (resolveLoop inbox allRefs remaining cache fetches acc).2 = Except.ok ids →
      ids = acc.reverse ++ remaining.map (resolveOne inbox)
  | [], cache, fetches, acc, ids, _, _, hok => by
    simp only [resolveLoop, Except.ok.injEq] at hok
    simp [← hok]
  | r :: rest, cache, fetches, acc, ids, hcache, hsub, hok => by
    by_cases hr : isIndexRef r = true
    · have hmem : r ∈ allRefs := hsub r (List.mem_cons_self r rest)
      have hlt : refToNat r < maxIndexRef allRefs + 1 :=
        Nat.lt_succ_of_le (hbound r hmem hr)
      have hone : (inbox.take (maxIndexRef allRefs + 1)).getD (refToNat r) "" =
          resolveOne inbox r := by
        rw [resolveOne, if_pos hr, getD_take inbox (maxIndexRef allRefs + 1) (refToNat r) "" hlt]
      rcases hcache with rfl | rfl <;>
      · simp only [resolveLoop, hr, if_true] at hok
        by_cases h2 : (inbox.take (maxIndexRef allRefs + 1)).length ≤ refToNat r
        · rw [if_pos h2] at hok
          exact absurd hok (by simp)
        · rw [if_neg h2] at hok
          have ih := resolveLoop_ok_eq inbox allRefs hbound rest _ _ _ ids
            (Or.inr rfl) (fun x hxm => hsub x (List.mem_cons_of_mem r hxm)) hok
          rw [ih, hone, List.reverse_cons, List.map_cons, List.append_assoc,
            List.singleton_append]
    · simp only [resolveLoop, hr, Bool.false_eq_true, if_false] at hok
      have ih := resolveLoop_ok_eq inbox allRefs hbound rest _ _ _ ids
        hcache (fun x hxm => hsub x (List.mem_cons_of_mem r hxm)) hok
      have hone : r = resolveOne inbox r := by rw [resolveOne, if_neg (by simp [hr])]
      rw [ih, List.reverse_cons, List.map_cons, ← hone, List.append_assoc,
        List.singleton_append]

/-- Shape of a failing run of the loop: if some remaining index-shaped
reference is at or beyond the snapshot's length, the whole run fails with
an out-of-range message naming an index at or beyond that length. -/
lemma resolveLoop_err_shape (inbox allRefs : List String) :
    ∀ (remaining : List String) (cache : Option (List String)) (fetches : List Nat)
      (acc : List String),
      (cache = none ∨ cache = some (inbox.take (maxIndexRef allRefs + 1))) →
      (∃ r ∈ remaining, isIndexRef r = true ∧
        (inbox.take (maxIndexRef allRefs + 1)).length ≤ refToNat r) →
      ∃ i, (inbox.take (maxIndexRef allRefs + 1)).length ≤ i ∧
        (resolveLoop inbox allRefs remaining cache fetches acc).2 =
          Except.error (outOfRangeMsg i)
  | [], _, _, _, _, hex => by simp at hex
  | r :: rest, cache, fetches, acc, hcache, hex => by
    by_cases hr : isIndexRef r = true
    · rcases hcache with rfl | rfl <;>
      · simp only [resolveLoop, hr, if_true]
        by_cases h2 : (inbox.take (maxIndexRef allRefs + 1)).length ≤ refToNat r
        · rw [if_pos h2]
          exact ⟨refToNat r, h2, rfl⟩
        · rw [if_neg h2]
          apply resolveLoop_err_shape inbox allRefs rest _ _ _ (Or.inr rfl)
          rcases hex with ⟨x, hx, hxi, hxl⟩
          rcases List.mem_cons.mp hx with rfl | hx
          · exact absurd hxl h2
          · exact ⟨x, hx, hxi, hxl⟩
    · simp only [resolveLoop, hr, Bool.false_eq_true, if_false]
      apply resolveLoop_err_shape inbox allRefs rest cache fetches _ hcache
      rcases hex with ⟨x, hx, hxi, hxl⟩
      rcases List.mem_cons.mp hx with rfl | hx
      · exact absurd hxi hr
      · exact ⟨x, hx, hxi, hxl⟩

/-! ### Claim theorems -/

/-- C1: a raw reference is treated as an Index (a position into the inbox
snapshot) iff its text consists solely of decimal digits and is at most 4
characters long; every other string — including numeric strings of 5 or
more digits, as the witness shows on a 20000-entry snapshot — is emitted
unchanged as a durable identifier, whatever the snapshot's length. -/
theorem index_iff_short_digits :
    ∀ (s : String) (inbox : List String),
      (isIndexRef s = true ↔ consistsSolelyOfDecimalDigits s ∧ s.length ≤ 4) ∧
      (isIndexRef s = false → resolveRefs inbox [s] = ([], Except.ok [s])) := by
  intro s inbox
  constructor
  · unfold isIndexRef pyIsDigit consistsSolelyOfDecimalDigits
    simp [List.all_eq_true, List.isEmpty_iff, Bool.and_eq_true, decide_eq_true_eq,
      Bool.not_eq_true', and_assoc]
  · exact resolveRefs_durable_singleton inbox s

/-- C1 witness: `"12345"` (five digits) is not index-shaped and passes
through unchanged, with no fetch, against a 20000-entry inbox. -/
theorem index_iff_short_digits_witness :
    resolveRefs (List.replicate 20000 "x") ["12345"] = ([], Except.ok ["12345"]) :=
  (index_iff_short_digits "12345" (List.replicate 20000 "x")).2 (by rfl)

/-- C2: a batch with at least one index-shaped reference triggers exactly
one inbox fetch, of page size exactly `maxIndexRef refs + 1` (hence at
least `max_index + 1`); a batch with none triggers no fetch at all. -/
theorem one_lazy_fetch_per_batch :
    ∀ (inbox refs : List String),
      (refs.any (fun r => isIndexRef r) = true →
        (resolveRefs inbox refs).1 = [maxIndexRef refs + 1]) ∧
      (refs.any (fun r => isIndexRef r) = false →
        (resolveRefs inbox refs).1 = []) := by
  intro inbox refs
  constructor
  · intro h
    have hex : ∃ r ∈ refs, isIndexRef r = true := by
      simpa using List.any_eq_true.mp h
    exact resolveLoop_fetches_uncached inbox refs refs [] [] hex
  · intro h
    have hall : ∀ r ∈ refs, isIndexRef r = false := by
      intro r hr
      by_contra hc
      exact absurd (List.any_eq_true.mpr ⟨r, hr, by simpa using hc⟩)
        (by simp [h])
    rw [resolveRefs, resolveLoop_all_durable inbox refs refs none [] [] hall]

/-- C2 witness: the batch `["2", "x"]` causes one fetch of page size 3;
the batch `["x"]` causes none. -/
theorem one_lazy_fetch_per_batch_witness :
    (resolveRefs ["a", "b", "c", "d"] ["2", "x"]).1 = [maxIndexRef ["2", "x"] + 1] ∧
    (resolveRefs ["a", "b", "c", "d"] ["x"]).1 = [] :=
  ⟨(one_lazy_fetch_per_batch ["a", "b", "c", "d"] ["2", "x"]).1 (by rfl),
   (one_lazy_fetch_per_batch ["a", "b", "c", "d"] ["x"]).2 (by rfl)⟩

/-- C3: a fully successful resolution returns one durable identifier per
input reference, in input order with multiplicity: position `i` of the
output is the snapshot entry at the index, or the reference itself when it
is not index-shaped. -/
theorem resolve_preserves_order_and_multiplicity :
    ∀ (inbox refs ids : List String),
      (resolveRefs inbox refs).2 = Except.ok ids →
      ids.length = refs.length ∧ ids = refs.map (resolveOne inbox) := by
  intro inbox refs ids hok
  have hbound : ∀ r ∈ refs, isIndexRef r = true → refToNat r ≤ maxIndexRef refs :=
    fun r hm hi => refToNat_le_max refs r hm hi
  have h := resolveLoop_ok_eq inbox refs hbound refs none [] [] ids
    (Or.inl rfl) (fun _ hx => hx) hok
  simp only [List.reverse_nil, List.nil_append] at h
  exact ⟨by rw [h, List.length_map], h⟩

/-- C3 witness: `["3", "3", "abc123"]` against snapshot
`["a", "b", "c", "d"]` resolves to `["d", "d", "abc123"]` — the repeated
index yields the same identifier twice, the durable id passes through in
place. -/
theorem resolve_preserves_order_witness :
    (["d", "d", "abc123"] : List String).length =
        (["3", "3", "abc123"] : List String).length ∧
    ["d", "d", "abc123"] =
        (["3", "3", "abc123"] : List String).map (resolveOne ["a", "b", "c", "d"]) :=
  resolve_preserves_order_and_multiplicity ["a", "b", "c", "d"]
    ["3", "3", "abc123"] ["d", "d", "abc123"] (by rfl)

/-- C9: the empty string satisfies the spec's lexical rule vacuously
(every one of its characters is a digit, and its length is ≤ 4), yet the
code classifies it as a durable identifier: it is emitted unchanged with
no inbox fetch. -/
theorem empty_string_is_durable :
    (∀ c ∈ String.data "", c.isDigit) ∧ String.length "" ≤ 4 ∧
    isIndexRef "" = false ∧
    ∀ inbox : List String, resolveRefs inbox [""] = ([], Except.ok [""]) :=
  ⟨by simp, by decide, by rfl,
   fun inbox => resolveRefs_durable_singleton inbox "" (by rfl)⟩

/-- C4: the `star` command issues a single batched label-application call,
but the label it applies is `"10"`, which the repository's own
`SYSTEM_LABELS` table names "Scheduled"; the label the repository names
"Starred" is `"3"` (both in `SYSTEM_LABELS` and in `FOLDER_ALIASES`).
So the Starred system label, by the repository's own tables, is not the
one applied. -/
theorem star_applies_label_ten :
    starCalls behOk ["m1"] = ([MutCall.setLabel "10" ["m1"]], Except.ok ()) ∧
    SYSTEM_LABELS "10" = some "Scheduled" ∧
    SYSTEM_LABELS "3" = some "Starred" ∧
    FOLDER_ALIASES "starred" = some "3" :=
  ⟨rfl, by rfl, by rfl, by rfl⟩

/-- C5: for every collaborator behaviour and every resolved identifier
set, the archive trace starts with the apply-Archive-label call and the
spam trace starts with the apply-Spam-label call; the remove-Inbox-label
call, when issued at all, comes strictly after — it is never issued
first. -/
theorem add_label_precedes_remove :
    ∀ (beh : MutCall → Except String Unit) (ids : List String),
      (∃ rest, (archiveCalls beh ids).1 = MutCall.setLabel "4" ids :: rest ∧
        (rest = [] ∨ rest = [MutCall.unsetLabel "0" ids])) ∧
      (∃ rest, (spamCalls beh ids).1 = MutCall.setLabel "6" ids :: rest ∧
        (rest = [] ∨ rest = [MutCall.unsetLabel "0" ids])) := by
  intro beh ids
  constructor
  · rcases h1 : beh (MutCall.setLabel "4" ids) with e | u
    · exact ⟨[], by simp [archiveCalls, h1], Or.inl rfl⟩
    · rcases h2 : beh (MutCall.unsetLabel "0" ids) with e | u
      · exact ⟨[MutCall.unsetLabel "0" ids], by simp [archiveCalls, h1, h2], Or.inr rfl⟩
      · exact ⟨[MutCall.unsetLabel "0" ids], by simp [archiveCalls, h1, h2], Or.inr rfl⟩
  · rcases h1 : beh (MutCall.setLabel "6" ids) with e | u
    · exact ⟨[], by simp [spamCalls, h1], Or.inl rfl⟩
    · rcases h2 : beh (MutCall.unsetLabel "0" ids) with e | u
      · exact ⟨[MutCall.unsetLabel "0" ids], by simp [spamCalls, h1, h2], Or.inr rfl⟩
      · exact ⟨[MutCall.unsetLabel "0" ids], by simp [spamCalls, h1, h2], Or.inr rfl⟩

/-- C6 counterexample: resolving `["9"]` against a length-4 snapshot does
fail, but the error the batch resolver raises is the string
`"Index 9 out of range"`, which reports only the requested index — the
snapshot's actual length 4 appears nowhere in it. -/
theorem out_of_range_message_omits_length :
    (resolveRefs ["a", "b", "c", "d"] ["9"]).2 = Except.error "Index 9 out of range" ∧
    ¬ mentionsNat "Index 9 out of range" 4 := by
  exact ⟨by rfl, by decide⟩

/-- C6 amended: when an index-shaped reference is at or beyond the
snapshot's length, the whole batch fails with an out-of-range error whose
message reports the requested index (the snapshot's length is not part of
the batch resolver's message). -/
theorem out_of_range_reports_requested_index :
    ∀ (inbox refs : List String) (r : String),
      r ∈ refs → isIndexRef r = true → inbox.length ≤ refToNat r →
      ∃ i, inbox.length ≤ i ∧
        (resolveRefs inbox refs).2 = Except.error (outOfRangeMsg i) ∧
        mentionsNat (outOfRangeMsg i) i := by
  intro inbox refs r hm hi hl
  have hmax : refToNat r ≤ maxIndexRef refs := refToNat_le_max refs r hm hi
  have hlen : (inbox.take (maxIndexRef refs + 1)).length = inbox.length := by
    rw [List.length_take]
    exact Nat.min_eq_right (le_trans hl (le_trans hmax (Nat.le_succ _)))
  obtain ⟨i, hle, herr⟩ := resolveLoop_err_shape inbox refs refs none [] []
    (Or.inl rfl) ⟨r, hm, hi, by rw [hlen]; exact hl⟩
  rw [hlen] at hle
  exact ⟨i, hle, herr, mentionsNat_outOfRangeMsg i⟩

/-- C6 amended witness: `["9"]` against the length-4 snapshot
`["a", "b", "c", "d"]` fails with an out-of-range message naming an index
at or beyond 4. -/
theorem out_of_range_reports_requested_index_witness :
    ∃ i, (["a", "b", "c", "d"] : List String).length ≤ i ∧
      (resolveRefs ["a", "b", "c", "d"] ["9"]).2 = Except.error (outOfRangeMsg i) ∧
      mentionsNat (outOfRangeMsg i) i :=
  out_of_range_reports_requested_index ["a", "b", "c", "d"] ["9"] "9"
    (by decide) (by rfl) (by decide)

/-- C7: if batch resolution fails, none of the five action commands
issues any collaborator mutation call, whatever the collaborator
behaviour. -/
theorem no_mutation_on_resolve_failure :
    ∀ (inbox refs : List String) (beh : MutCall → Except String Unit) (e : String),
      (resolveRefs inbox refs).2 = Except.error e →
      (deleteCmd inbox refs beh).1 = [] ∧ (archiveCmd inbox refs beh).1 = [] ∧
      (spamCmd inbox refs beh).1 = [] ∧ (starCmd inbox refs beh).1 = [] ∧
      (unreadCmd inbox refs beh).1 = [] := by
  intro inbox refs beh e h
  exact ⟨by simp [deleteCmd, h], by simp [archiveCmd, h], by simp [spamCmd, h],
    by simp [starCmd, h], by simp [unreadCmd, h]⟩

/-- C7 witness: resolving `["0"]` against an empty inbox fails, and every
action command then issues zero mutation calls. -/
theorem no_mutation_on_resolve_failure_witness :
    (deleteCmd [] ["0"] behOk).1 = [] ∧ (archiveCmd [] ["0"] behOk).1 = [] ∧
    (spamCmd [] ["0"] behOk).1 = [] ∧ (starCmd [] ["0"] behOk).1 = [] ∧
    (unreadCmd [] ["0"] behOk).1 = [] :=
  no_mutation_on_resolve_failure [] ["0"] behOk (outOfRangeMsg 0) (by rfl)

/-- C8 counterexample: with a collaborator on which the add-label call
succeeds and the remove-label call fails (`behAddOk`), archive ends in
the mixed state after issuing both calls — yet its reported outcome is
exactly the same value as with a collaborator whose very first
(add-label) call fails cleanly (`behClean`): the propagated collaborator
error, with no distinct partial-failure report. -/
theorem partial_failure_not_distinct :
    (archiveCalls behAddOk ["m1"]).1 =
        [MutCall.setLabel "4" ["m1"], MutCall.unsetLabel "0" ["m1"]] ∧
    (archiveCalls behClean ["m1"]).1 = [MutCall.setLabel "4" ["m1"]] ∧
    (archiveCalls behAddOk ["m1"]).2 = Except.error "network error" ∧
    (archiveCalls behAddOk ["m1"]).2 = (archiveCalls behClean ["m1"]).2 :=
  ⟨rfl, rfl, rfl, rfl⟩

/-- C8 amended: when the add-label call succeeds and the remove-label
call fails, archive and spam report a failure (never silent success):
the collaborator's own error, propagated verbatim after both calls were
issued — but not a distinct partial-failure kind. -/
theorem partial_failure_propagates_error :
    ∀ (beh : MutCall → Except String Unit) (ids : List String) (e : String),
      (beh (MutCall.setLabel "4" ids) = Except.ok () →
        beh (MutCall.unsetLabel "0" ids) = Except.error e →
        archiveCalls beh ids =
          ([MutCall.setLabel "4" ids, MutCall.unsetLabel "0" ids], Except.error e)) ∧
      (beh (MutCall.setLabel "6" ids) = Except.ok () →
        beh (MutCall.unsetLabel "0" ids) = Except.error e →
        spamCalls beh ids =
          ([MutCall.setLabel "6" ids, MutCall.unsetLabel "0" ids], Except.error e)) := by
  intro beh ids e
  constructor
  · intro h1 h2
    simp [archiveCalls, h1, h2]
  · intro h1 h2
    simp [spamCalls, h1, h2]

/-- C8 amended witness: on `behAddOk` the add call succeeds, the remove
call fails, and archive reports the propagated error after both calls. -/
theorem partial_failure_propagates_error_witness :
    archiveCalls behAddOk ["m1"] =
      ([MutCall.setLabel "4" ["m1"], MutCall.unsetLabel "0" ["m1"]],
        Except.error "network error") :=
  (partial_failure_propagates_error behAddOk ["m1"] "network error").1
    (by rfl) (by rfl)

/-- C10: on the same inbox listing, the `read` command's inline
single-reference resolution performs the same fetches as the batch
resolver on the one-element batch, fails exactly when the batch resolver
fails, and succeeds with identifier `id` exactly when the batch resolver
succeeds with `[id]`. -/
theorem read_single_matches_batch :
    ∀ (inbox : List String) (ref : String),
      (readResolve inbox ref).1 = (resolveRefs inbox [ref]).1 ∧
      ((∃ e, (readResolve inbox ref).2 = Except.error e) ↔
        (∃ e, (resolveRefs inbox [ref]).2 = Except.error e)) ∧
      (∀ id, (readResolve inbox ref).2 = Except.ok id ↔
        (resolveRefs inbox [ref]).2 = Except.ok [id]) := by
  intro inbox ref
  by_cases hr : isIndexRef ref = true
  · have hmax : maxIndexRef [ref] = refToNat ref := by
      simp [maxIndexRef, List.filter_cons, hr]
    simp only [readResolve, resolveRefs, resolveLoop, hr, if_true, hmax]
    by_cases h2 : (inbox.take (refToNat ref + 1)).length ≤ refToNat ref
    · rw [if_pos h2, if_pos h2]
      refine ⟨by simp, by simp, ?_⟩
      intro id
      simp
    · rw [if_neg h2, if_neg h2]
      simp only [resolveLoop]
      refine ⟨by simp, by simp, ?_⟩
      intro id
      simp
  · have hr2 : isIndexRef ref = false := by simp [hr]
    rw [resolveRefs_durable_singleton inbox ref hr2]
    simp only [readResolve, hr2, Bool.false_eq_true, if_false]
    refine ⟨by simp, by simp, ?_⟩
    intro id
    simp

/-- C10 witness: reference `"1"` against the listing `["a", "b"]`: the
read path yields `"b"`, so the batch resolver on `["1"]` yields
`["b"]`. -/
theorem read_single_matches_batch_witness :
    (resolveRefs ["a", "b"] ["1"]).2 = Except.ok ["b"] :=
  ((read_single_matches_batch ["a", "b"] "1").2.2 "b").mp (by rfl)

end PmailCli
